import Mathlib

/-!
Shallow embedding of the media upload and processing pipeline in
`src/api/thumbnails.ts` (handlers `handlerGetThumbnail`,
`handlerUploadThumbnail`, `handlerUploadVideo` and helpers
`getVideoAspectRatio`, `processVideoForFastStart`, `dbVideoToSignedVideo`,
`generatePresignedURL`).

Modelling choices:
- The database of video records, the module-level `videoThumbnails` map,
  the local filesystem and the S3 bucket are modelled as association lists
  inside an explicit `WorldState`; the handlers are pure state transformers
  returning `WorldState × Except Err result`, with the state at the moment
  a JS exception is thrown returned alongside the error (so leftover files
  on failure paths are observable).
- External-process invocations (`ffprobe`, `ffmpeg`) and other
  nondeterministic effects (`randomBytes`, S3 success, presigning) are
  inputs: a `ProbeProc` / `RemuxProc` record carries the process outcome
  (exit code, stderr, and the shape of its observable output), a string
  carries the random asset name, and `presign` is a function parameter.
- Bearer-token extraction and JWT validation are the external Auth
  collaborator; the handlers receive the already-validated `userID`.
- JS numbers are IEEE-754 binary64 doubles, and
  `Math.floor((width/height) * 100)` is embedded bit-faithfully: the
  division and the multiplication each round their exact rational result
  to 53 significand bits, round-to-nearest ties-to-even
  (`jsFloorRatio100` below, built from integer arithmetic only so the
  kernel can evaluate it). Width and height themselves are exactly
  representable in the realizable range. Division by zero yields
  Infinity/NaN, neither of which compares equal to the finite targets,
  modelled by an `Option` result with `none` for the nonfinite case.
- `path.join(cfg.assetsRoot, name)` is embedded as
  `cfg.assetsRoot ++ "/" ++ name`.
-/

set_option autoImplicit false
set_option maxRecDepth 2048

namespace FileStorage

/-- Video record row of the external record store (`../db/videos`):
`id`, `userID`, `videoURL`, `thumbnailURL`; the URL fields are nullable. -/
structure Video where
  id : String
  userID : String
  videoURL : Option String
  thumbnailURL : Option String
  deriving DecidableEq, Repr

/-- Entry of the module-level `videoThumbnails` map: raw bytes plus the
declared media type (`type Thumbnail = { data; mediaType }`). -/
structure Thumbnail where
  data : List Nat
  mediaType : String
  deriving DecidableEq, Repr

/-- Association-list store keyed by strings: the model of the record
store, the `videoThumbnails` map, the local filesystem and the S3 bucket. -/
def getEntry {α : Type} : List (String × α) → String → Option α
  | [], _ => none
  | (k', v') :: rest, k => if k' = k then some v' else getEntry rest k

/-- Insert-or-replace for association-list stores (the semantics of
`Map.set`, `Bun.write` to a path, and S3 `write` to a key). -/
def setEntry {α : Type} : List (String × α) → String → α → List (String × α)
  | [], k, v => [(k, v)]
  | (k', v') :: rest, k, v =>
      if k' = k then (k, v) :: rest else (k', v') :: setEntry rest k v

/-- Removal for association-list stores (the semantics of
`rm(path, { force: true })`: removing an absent key is a no-op). -/
def removeEntry {α : Type} : List (String × α) → String → List (String × α)
  | [], _ => []
  | (k', v') :: rest, k =>
      if k' = k then rest else (k', v') :: removeEntry rest k

/-- Observable mutable world: the record store (`cfg.db`), the
module-level `videoThumbnails` registry, the local filesystem
(path to bytes) and the S3 bucket (key to bytes). -/
structure WorldState where
  db : List (String × Video)
  videoThumbnails : List (String × Thumbnail)
  files : List (String × List Nat)
  s3 : List (String × List Nat)
  deriving DecidableEq, Repr

/-- Errors a handler can surface: `BadRequestError`, `NotFoundError`,
`UserForbiddenError` from `./errors`, a plain `new Error(msg)`, and the
JS runtime exceptions raised by `JSON.parse` on malformed text
(`syntaxError`) and by destructuring `undefined` (`typeError`). -/
inductive Err where
  | badRequest (msg : String)
  | notFound (msg : String)
  | userForbidden (msg : String)
  | error (msg : String)
  | syntaxError (msg : String)
  | typeError (msg : String)
  deriving DecidableEq, Repr

deriving instance DecidableEq for Except

/-- Message carried by an error (the `.message` of the thrown object). -/
def Err.message : Err → String
  | .badRequest m => m
  | .notFound m => m
  | .userForbidden m => m
  | .error m => m
  | .syntaxError m => m
  | .typeError m => m

/-- Uploaded multipart `File`: declared `size`, declared MIME `type`
(empty string when the browser sent none), and the payload bytes. -/
structure UploadFile where
  size : Nat
  type : String
  bytes : List Nat
  deriving DecidableEq, Repr

/-- `getVideo(db, id)` of the external record store. -/
def getVideo (db : List (String × Video)) (id : String) : Option Video :=
  getEntry db id

/-- `updateVideo(db, video)` of the external record store: replaces the
row keyed by `video.id`. -/
def updateVideo (db : List (String × Video)) (video : Video) :
    List (String × Video) :=
  setEntry db video.id video

/-- Relevant `ApiConfig` fields: `assetsRoot` and `port`. -/
structure Cfg where
  assetsRoot : String
  port : Nat
  deriving DecidableEq, Repr

/-- Split a character list at every occurrence of `sep`, with the
semantics of JS `String.prototype.split` on a one-character separator:
the empty list yields one empty group, a trailing separator yields a
trailing empty group. -/
def splitOnChar (sep : Char) : List Char → List (List Char)
  | [] => [[]]
  | c :: rest =>
    let groups := splitOnChar sep rest
    if c = sep then [] :: groups
    else
      match groups with
      | [] => [[c]]
      | g :: gs => (c :: g) :: gs

/-- JS `s.split(sep)` for a one-character separator. -/
def splitString (sep : Char) (s : String) : List String :=
  (splitOnChar sep s.data).map List.asString

/-- JS `mediaType.split("/")[1]` as used to derive the asset file
extension; an out-of-range index is `undefined`, which string
concatenation coerces to `"undefined"`. -/
def mediaSubtype (mediaType : String) : String :=
  (splitString '/' mediaType).getD 1 "undefined"

/-- On-disk asset path of `handlerUploadThumbnail`:
`path.join(cfg.assetsRoot, randomName + "." + subtype)`. -/
def assetPathOf (cfg : Cfg) (randomName mediaType : String) : String :=
  cfg.assetsRoot ++ "/" ++ randomName ++ ("." ++ mediaSubtype mediaType)

/-- `MAX_UPLOAD_SIZE = 10 << 20` of `handlerUploadThumbnail` (10 MiB). -/
def MAX_UPLOAD_SIZE_THUMB : Nat := 10 <<< 20

/-- `MAX_UPLOAD_SIZE = 1 << 30` of `handlerUploadVideo` (1 GiB). -/
def MAX_UPLOAD_SIZE_VIDEO : Nat := 1 <<< 30

/-- Observable outcome of the `ffprobe` invocation's stdout once the
process exited: either text `JSON.parse` rejects (with the parser's own
message, derived from the text, not from stderr), or JSON whose
`streams` array is empty (so `data.streams[0]` is `undefined`), or a
first stream carrying `width` and `height`. -/
inductive ProbeStdout where
  | malformed (parseErrMsg : String)
  | noStreams
  | streams (width height : Nat)
  deriving DecidableEq, Repr

/-- Outcome of one `Bun.spawn(["ffprobe", ...])` run. -/
structure ProbeProc where
  exitCode : Nat
  stderr : String
  stdout : ProbeStdout
  deriving DecidableEq, Repr

/-- Outcome of one `Bun.spawn(["ffmpeg", ...])` run: exit code, stderr,
and the bytes `ffmpeg` left at the output path (`none` when it created
no output file). -/
structure RemuxProc where
  exitCode : Nat
  stderr : String
  output : Option (List Nat)
  deriving DecidableEq, Repr

/-- Structural, kernel-evaluable floor-log2, consuming 8 bits per
recursive step (so closed evaluations stay shallow); `log2Fuel fuel n`
is the floor of `log2 n` whenever `0 < n ≤ fuel` (proved below as
`log2Fuel_spec`). -/
def log2Fuel : Nat → Nat → Nat
  | 0, _ => 0
  | fuel + 1, n =>
    if 256 ≤ n then log2Fuel fuel (n / 256) + 8
    else if 128 ≤ n then 7
    else if 64 ≤ n then 6
    else if 32 ≤ n then 5
    else if 16 ≤ n then 4
    else if 8 ≤ n then 3
    else if 4 ≤ n then 2
    else if 2 ≤ n then 1
    else 0

/-- Floor of the base-2 logarithm (0 at 0 and 1), defined structurally
so that closed evaluations reduce in the kernel. -/
def natLog2 (n : Nat) : Nat := log2Fuel n n

/-- Round the positive rational `num / den` to the nearest integer,
ties to even — the IEEE-754 default rounding applied to an integer
significand. -/
def roundNearestEven (num den : Nat) : Nat :=
  let q := num / den
  let r := num % den
  if 2 * r < den then q
  else if den < 2 * r then q + 1
  else if q % 2 = 0 then q else q + 1

/-- Floor of `log2 (n / d)` for positive naturals `n`, `d`: the binary
exponent of the quotient. -/
def ratFloorLog2 (n d : Nat) : Int :=
  let a := natLog2 n
  let b := natLog2 d
  if b ≤ a then
    if d * 2 ^ (a - b) ≤ n then ((a - b : Nat) : Int) else ((a - b : Nat) : Int) - 1
  else
    if d ≤ n * 2 ^ (b - a) then -((b - a : Nat) : Int) else -((b - a : Nat) : Int) - 1

/-- IEEE-754 binary64 division of positive naturals `n / d`: the exact
quotient rounded to a 53-bit significand, returned as
`(significand, exponent)` with value `m * 2 ^ e` and
`m ∈ [2^52, 2^53]`. -/
def fdiv64 (n d : Nat) : Nat × Int :=
  let t := ratFloorLog2 n d
  let s := 52 - t
  if 0 ≤ s then
    (roundNearestEven (n * 2 ^ s.toNat) d, t - 52)
  else
    (roundNearestEven n (d * 2 ^ (-s).toNat), t - 52)

/-- IEEE-754 binary64 multiplication of the double `m * 2 ^ e` by the
exactly representable constant 100: the exact product re-rounded to a
53-bit significand. -/
def times100round (m : Nat) (e : Int) : Nat × Int :=
  let p := m * 100
  let bits := natLog2 p + 1
  if bits ≤ 53 then (p, e)
  else
    let shift := bits - 53
    (roundNearestEven p (2 ^ shift), e + shift)

/-- Floor of the nonnegative double `m * 2 ^ e` (`Math.floor` on a
finite nonnegative value). -/
def floorPow2 (m : Nat) (e : Int) : Nat :=
  if 0 ≤ e then m * 2 ^ e.toNat else m / 2 ^ (-e).toNat

/-- JS `Math.floor((n / d) * 100)` computed in binary64 double
precision: divide, round; multiply by 100, round; floor. `d = 0` gives
Infinity (or NaN at `0/0`), neither finite — returned as `none`, which
compares unequal to every finite target. -/
def jsFloorRatio100 (n d : Nat) : Option Nat :=
  if d = 0 then none
  else if n = 0 then some 0
  else
    let p1 := fdiv64 n d
    let p2 := times100round p1.1 p1.2
    some (floorPow2 p2.1 p2.2)

/-- Aspect classification of `getVideoAspectRatio` after a successful
parse: `landscape = Math.floor((16/9)*100)`,
`portrait = Math.floor((9/16)*100)`,
`aspect = Math.floor((width/height)*100)`, all three computed in
binary64 double precision exactly as the JS engine does, compared by
exact equality (`===`), default `"other"`. -/
def classifyAspect (width height : Nat) : String :=
  let landscape := jsFloorRatio100 16 9
  let portrait := jsFloorRatio100 9 16
  let aspect := jsFloorRatio100 width height
  if aspect = landscape then "landscape"
  else if aspect = portrait then "portrait"
  else "other"

/-- `getVideoAspectRatio(filePath)`: non-zero exit throws
`new Error(stderrText)`; then `JSON.parse(stdoutText)` (a `SyntaxError`
on malformed text), then destructuring `data.streams[0]` (a `TypeError`
when the array is empty), then classification. -/
def getVideoAspectRatio (proc : ProbeProc) : Except Err String :=
  if proc.exitCode ≠ 0 then
    .error (.error proc.stderr)
  else
    match proc.stdout with
    | .malformed msg => .error (.syntaxError msg)
    | .noStreams =>
        .error (.typeError "undefined is not an object (evaluating data.streams[0])")
    | .streams width height => .ok (classifyAspect width height)

/-- `processVideoForFastStart(inputFilePath)`: the output path is
`inputFilePath + ".processed"`; whatever bytes `ffmpeg` produced land
there before the exit code is inspected; a non-zero exit throws
`new Error("Command failed with code " + exitCode + ": " + errorText)`. -/
def processVideoForFastStart (proc : RemuxProc) (inputFilePath : String)
    (st : WorldState) : WorldState × Except Err String :=
  let outputFilePath := inputFilePath ++ ".processed"
  let st1 :=
    match proc.output with
    | none => st
    | some bytes => { st with files := setEntry st.files outputFilePath bytes }
  if proc.exitCode ≠ 0 then
    (st1, .error (.error ("Command failed with code " ++ toString proc.exitCode
        ++ ": " ++ proc.stderr)))
  else
    (st1, .ok outputFilePath)

/-- `generatePresignedURL(cfg, key, expireTime)`:
`cfg.s3Client.presign(key, { expiresIn: expireTime })`, with the S3
client's presigner passed in as a function. -/
def generatePresignedURL (presign : String → Nat → String) (key : String)
    (expireTime : Nat) : String :=
  presign key expireTime

/-- `dbVideoToSignedVideo(cfg, video)`: overwrites `video.videoURL` with
`generatePresignedURL(cfg, video.videoURL!, 360)` and returns the record.
The `!` is a TypeScript non-null assertion; at its only call site the
field was just set to the storage key, the `"undefined"` default is the
string JS would coerce an absent value to. -/
def dbVideoToSignedVideo (presign : String → Nat → String) (video : Video) :
    Video :=
  { video with
    videoURL :=
      some (generatePresignedURL presign (video.videoURL.getD "undefined") 360) }

/-- Storage key derived in `handlerUploadVideo`:
`key = aspectRatio + "/" + videoId + ".mp4"`. -/
def storageKey (aspectRatio videoId : String) : String :=
  aspectRatio ++ "/" ++ videoId ++ ".mp4"

/-- Scratch path `path.join("/tmp", videoId + ".mp4")`. -/
def tempFilePathOf (videoId : String) : String :=
  "/tmp/" ++ videoId ++ ".mp4"

/-- Request to `handlerGetThumbnail` or `handlerUploadThumbnail` after
auth: the `videoId` route parameter, the validated requester principal,
and the `thumbnail` form entry (`none` when absent or not a `File`). -/
structure ThumbReq where
  videoId : Option String
  userID : String
  thumbnail : Option UploadFile
  deriving DecidableEq, Repr

/-- Request to `handlerUploadVideo` after auth. -/
structure VideoReq where
  videoId : Option String
  userID : String
  upload : Option UploadFile
  deriving DecidableEq, Repr

/-- Nondeterministic environment of one `handlerUploadVideo` run: the
two external-process outcomes, whether the S3 `write` succeeds, and the
S3 presigner. -/
structure VideoEnv where
  probe : ProbeProc
  remux : RemuxProc
  s3PutOk : Bool
  presign : String → Nat → String

/-- Response of `handlerGetThumbnail`: body bytes and headers. -/
structure ThumbResponse where
  data : List Nat
  contentType : String
  cacheControl : String
  deriving DecidableEq, Repr

/-- `handlerGetThumbnail(cfg, req)`: missing route param throws
`BadRequestError`; `getVideo` miss throws `NotFoundError("Couldn't find
video")`; `videoThumbnails.get(videoId)` miss throws
`NotFoundError("Thumbnail not found")`; otherwise a `Response` with the
stored bytes, the stored media type, and `Cache-Control: no-store`. -/
def handlerGetThumbnail (videoId? : Option String) (st : WorldState) :
    WorldState × Except Err ThumbResponse :=
  match videoId? with
  | none => (st, .error (.badRequest "Invalid video ID"))
  | some videoId =>
    match getVideo st.db videoId with
    | none => (st, .error (.notFound "Couldn't find video"))
    | some _ =>
      match getEntry st.videoThumbnails videoId with
      | none => (st, .error (.notFound "Thumbnail not found"))
      | some thumbnail =>
          (st, .ok { data := thumbnail.data, contentType := thumbnail.mediaType,
                     cacheControl := "no-store" })

/-- `handlerUploadThumbnail(cfg, req)`: validation (file present, size
within `10 << 20`, media type non-empty and `image/jpeg` or
`image/png`), then `Bun.write` of the payload to
`path.join(cfg.assetsRoot, randomName + "." + subtype)`, then the record
lookup and ownership check, then `thumbnailURL` update and
`updateVideo`. `randomName` stands for `randomBytes(32).toString("base64url")`.
The `videoThumbnails` registry is never written. -/
def handlerUploadThumbnail (cfg : Cfg) (randomName : String) (req : ThumbReq)
    (st : WorldState) : WorldState × Except Err Video :=
  match req.videoId with
  | none => (st, .error (.badRequest "Invalid video ID"))
  | some videoId =>
    match req.thumbnail with
    | none => (st, .error (.badRequest "Thumbnail file missing"))
    | some thumbnail =>
      if thumbnail.size > MAX_UPLOAD_SIZE_THUMB then
        (st, .error (.badRequest "Thumbnail too large, max size: 10MB"))
      else
        let mediaType := thumbnail.type
        if mediaType = "" then
          (st, .error (.badRequest "Missing Content-Type for thumbnail"))
        else if mediaType ≠ "image/jpeg" ∧ mediaType ≠ "image/png" then
          (st, .error (.badRequest "Invalid Content-Type for thumbnail"))
        else
          let filetype := "." ++ mediaSubtype mediaType
          let urlPath := "/assets/" ++ randomName ++ filetype
          let fullPath := assetPathOf cfg randomName mediaType
          let st1 := { st with files := setEntry st.files fullPath thumbnail.bytes }
          match getVideo st1.db videoId with
          | none => (st1, .error (.notFound "Couldn't find video"))
          | some video =>
            if video.userID ≠ req.userID then
              (st1, .error (.userForbidden "Not authorized to update this video"))
            else
              let video1 := { video with
                thumbnailURL := some ("http://localhost:" ++ toString cfg.port ++ urlPath) }
              let st2 := { st1 with db := updateVideo st1.db video1 }
              (st2, .ok video1)

/-- `handlerUploadVideo(cfg, req)`: validation (file present, size within
`1 << 30`, media type non-empty and exactly `video/mp4`), record lookup
and ownership check, scratch write to `/tmp/{videoId}.mp4`, probe,
key derivation, in-memory `videoURL := key`, remux, existence check on
the processed file, S3 write, `dbVideoToSignedVideo` then `updateVideo`
(persisting the signed URL), `rm` of the scratch file only, and the
record as response. -/
def handlerUploadVideo (env : VideoEnv) (req : VideoReq) (st : WorldState) :
    WorldState × Except Err Video :=
  match req.videoId with
  | none => (st, .error (.badRequest "Invalid video ID"))
  | some videoId =>
    match req.upload with
    | none => (st, .error (.badRequest "Video file missing"))
    | some video =>
      if video.size > MAX_UPLOAD_SIZE_VIDEO then
        (st, .error (.badRequest "Video too large, max size: 1GB"))
      else
        let mediaType := video.type
        if mediaType = "" then
          (st, .error (.badRequest "Missing Content-Type for video"))
        else if mediaType ≠ "video/mp4" then
          (st, .error (.badRequest "Invalid Content-Type for video, only MP4 is allowed"))
        else
          match getVideo st.db videoId with
          | none => (st, .error (.notFound "Couldn't find video"))
          | some videoTemp =>
            if videoTemp.userID ≠ req.userID then
              (st, .error (.userForbidden "Not authorized to update this video"))
            else
              let tempFilePath := tempFilePathOf videoId
              let st1 := { st with files := setEntry st.files tempFilePath video.bytes }
              match getVideoAspectRatio env.probe with
              | .error e => (st1, .error e)
              | .ok aspectRatio =>
                let key := storageKey aspectRatio videoId
                let videoTemp1 := { videoTemp with videoURL := some key }
                match processVideoForFastStart env.remux tempFilePath st1 with
                | (st2, .error e) => (st2, .error e)
                | (st2, .ok processedVid) =>
                  match getEntry st2.files processedVid with
                  | none => (st2, .error (.error "Processed file was not created"))
                  | some bodyBytes =>
                    if env.s3PutOk then
                      let st3 := { st2 with s3 := setEntry st2.s3 key bodyBytes }
                      let videoData := dbVideoToSignedVideo env.presign videoTemp1
                      let st4 := { st3 with db := updateVideo st3.db videoData }
                      let st5 := { st4 with files := removeEntry st4.files tempFilePath }
                      (st5, .ok videoData)
                    else
                      (st2, .error (.error "S3 write failed"))

/-! ### Helper lemmas about association-list stores -/

theorem getEntry_setEntry_self {α : Type} (m : List (String × α)) (k : String) (v : α) :
    getEntry (setEntry m k v) k = some v := by
  induction m with
  | nil => simp [getEntry, setEntry]
  | cons p rest ih =>
    obtain ⟨k', v'⟩ := p
    by_cases h : k' = k <;> simp [getEntry, setEntry, h, ih]

theorem getEntry_setEntry_ne {α : Type} (m : List (String × α)) (k k' : String) (v : α)
    (h : k ≠ k') : getEntry (setEntry m k v) k' = getEntry m k' := by
  induction m with
  | nil => simp [getEntry, setEntry, h]
  | cons p rest ih =>
    obtain ⟨k0, v0⟩ := p
    by_cases h0 : k0 = k
    · subst h0
      simp [getEntry, setEntry, h]
    · simp [getEntry, setEntry, h0, ih]

theorem ne_append_processed (s : String) : s ≠ s ++ ".processed" := by
  intro hcontra
  have hl := congrArg String.length hcontra
  rw [String.length_append] at hl
  have h10 : (".processed" : String).length = 10 := rfl
  omega

theorem log2Fuel_spec (fuel : Nat) : ∀ n : Nat, 0 < n → n ≤ fuel →
    2 ^ log2Fuel fuel n ≤ n ∧ n < 2 ^ (log2Fuel fuel n + 1) := by
  induction fuel with
  | zero => intro n h1 h2; omega
  | succ k ih =>
    intro n h1 h2
    rw [log2Fuel]
    split_ifs with h256 h128 h64 h32 h16 h8 h4 h2
    · have hpos : 0 < n / 256 := Nat.div_pos h256 (by norm_num)
      have hle : n / 256 ≤ k := by
        have := Nat.div_lt_self h1 (show 1 < 256 by norm_num)
        omega
      obtain ⟨ha, hb⟩ := ih (n / 256) hpos hle
      have hdm := Nat.div_add_mod n 256
      have hml : n % 256 < 256 := Nat.mod_lt n (by norm_num)
      constructor
      · have hp : 2 ^ (log2Fuel k (n / 256) + 8) = 2 ^ log2Fuel k (n / 256) * 256 := by
          rw [pow_add]; norm_num
        rw [hp]
        have := Nat.mul_le_mul_right 256 ha
        omega
      · have hp : 2 ^ (log2Fuel k (n / 256) + 8 + 1)
            = 2 ^ (log2Fuel k (n / 256) + 1) * 256 := by
          rw [show log2Fuel k (n / 256) + 8 + 1 = log2Fuel k (n / 256) + 1 + 8 by omega,
            pow_add]
          norm_num
        rw [hp]
        have := Nat.mul_le_mul_right 256 hb
        omega
    all_goals norm_num; omega

/-- Faithfulness of the structural log2: `natLog2 n` is the exact floor
of `log2 n`, the binary exponent used for significand normalization. -/
theorem natLog2_spec (n : Nat) (h : 0 < n) :
    2 ^ natLog2 n ≤ n ∧ n < 2 ^ (natLog2 n + 1) :=
  log2Fuel_spec n n h le_rfl

/-! ### Floor-arithmetic bridge for the aspect classification -/

theorem natFloor_ratio_eq (w h : ℕ) :
    ⌊((w : ℚ) / (h : ℚ)) * 100⌋₊ = w * 100 / h := by
  have h1 : ((w : ℚ) / (h : ℚ)) * 100 = ((w * 100 : ℕ) : ℚ) / ((h : ℕ) : ℚ) := by
    push_cast; ring
  rw [h1, Nat.floor_div_nat, Nat.floor_natCast]

theorem natFloor_landscape_target : ⌊((16 : ℚ) / 9) * 100⌋₊ = 177 := by
  rw [Nat.floor_eq_iff (by norm_num)]; norm_num

theorem natFloor_portrait_target : ⌊((9 : ℚ) / 16) * 100⌋₊ = 56 := by
  rw [Nat.floor_eq_iff (by norm_num)]; norm_num

/-! ### Closed evaluations of the binary64 ratio computation -/

theorem jsFloorRatio100_16_9 : jsFloorRatio100 16 9 = some 177 := by decide

theorem jsFloorRatio100_9_16 : jsFloorRatio100 9 16 = some 56 := by decide

theorem jsFloorRatio100_1920_1080 : jsFloorRatio100 1920 1080 = some 177 := by decide

theorem jsFloorRatio100_1080_1920 : jsFloorRatio100 1080 1920 = some 56 := by decide

theorem jsFloorRatio100_1000_1000 : jsFloorRatio100 1000 1000 = some 100 := by decide

theorem jsFloorRatio100_1767_3100 : jsFloorRatio100 1767 3100 = some 56 := by decide

theorem classifyAspect_1920_1080 : classifyAspect 1920 1080 = "landscape" := by
  simp [classifyAspect, jsFloorRatio100_1920_1080, jsFloorRatio100_16_9, jsFloorRatio100_9_16]

theorem classifyAspect_1080_1920 : classifyAspect 1080 1920 = "portrait" := by
  simp [classifyAspect, jsFloorRatio100_1080_1920, jsFloorRatio100_16_9, jsFloorRatio100_9_16]

theorem classifyAspect_1000_1000 : classifyAspect 1000 1000 = "other" := by
  simp [classifyAspect, jsFloorRatio100_1000_1000, jsFloorRatio100_16_9, jsFloorRatio100_9_16]

theorem classifyAspect_1767_3100 : classifyAspect 1767 3100 = "portrait" := by
  simp [classifyAspect, jsFloorRatio100_1767_3100, jsFloorRatio100_16_9, jsFloorRatio100_9_16]

/-! ### Claim theorems -/

/-- Counterexample to C7 as stated: the claim computes the ratio as the
exact `floor((width/height) * 100)`, but the code evaluates that
expression in binary64 doubles. At width 1767, height 3100 the exact
value of `(1767/3100) * 100` is 57 precisely, so the claimed formula
classifies `"other"`; the code computes
`Math.floor(56.99999999999999) = 56` (the double nearest `1767/3100`
lies just below `0.57`) and classifies `"portrait"`. -/
theorem aspect_double_rounding_diverges_from_exact :
    classifyAspect 1767 3100 = "portrait" ∧
    ⌊((1767 : ℚ) / 3100) * 100⌋₊ = 57 ∧
    (if ⌊((1767 : ℚ) / 3100) * 100⌋₊ = ⌊((16 : ℚ) / 9) * 100⌋₊ then "landscape"
     else if ⌊((1767 : ℚ) / 3100) * 100⌋₊ = ⌊((9 : ℚ) / 16) * 100⌋₊ then "portrait"
     else "other") = "other" ∧
    ("portrait" : String) ≠ "other" := by
  have h57 : ⌊((1767 : ℚ) / 3100) * 100⌋₊ = 57 := by
    rw [Nat.floor_eq_iff (by positivity)]
    norm_num
  refine ⟨classifyAspect_1767_3100, h57, ?_, by decide⟩
  rw [h57, natFloor_landscape_target, natFloor_portrait_target]
  decide

/-- C7 (amended): aspect classification is a deterministic function of
width and height: the code computes `Math.floor((width/height) * 100)`
in IEEE-754 double precision and compares it by exact integer equality
(`===`) against the double-computed targets `Math.floor((16/9)*100)`
and `Math.floor((9/16)*100)`; those targets evaluate to 177 and 56 and
coincide with the exact `floor((16/9)*100)` and `floor((9/16)*100)`,
and any non-match is classified `"other"`. In particular 1920×1080
yields `"landscape"`, 1080×1920 yields `"portrait"`, 1000×1000 yields
`"other"`. (The double-computed ratio can fall below the exact
`floor((width/height)*100)` at some dimensions, e.g. 1767×3100.) -/
theorem aspect_classification_double_precision :
    (∀ w h : ℕ, classifyAspect w h =
       if jsFloorRatio100 w h = jsFloorRatio100 16 9 then "landscape"
       else if jsFloorRatio100 w h = jsFloorRatio100 9 16 then "portrait"
       else "other") ∧
    jsFloorRatio100 16 9 = some 177 ∧
    jsFloorRatio100 9 16 = some 56 ∧
    ⌊((16 : ℚ) / 9) * 100⌋₊ = 177 ∧
    ⌊((9 : ℚ) / 16) * 100⌋₊ = 56 ∧
    classifyAspect 1920 1080 = "landscape" ∧
    classifyAspect 1080 1920 = "portrait" ∧
    classifyAspect 1000 1000 = "other" := by
  exact ⟨fun w h => rfl, jsFloorRatio100_16_9, jsFloorRatio100_9_16,
    natFloor_landscape_target, natFloor_portrait_target, classifyAspect_1920_1080,
    classifyAspect_1080_1920, classifyAspect_1000_1000⟩

/-- C9: storage key derivation is a pure, deterministic function of the
classification and the video identifier, producing
`{classification}/{videoId}.mp4`; in particular
`storageKey "portrait" "abc" = "portrait/abc.mp4"`. -/
theorem storage_key_pure_deterministic :
    storageKey "portrait" "abc" = "portrait/abc.mp4" ∧
    ∀ c v : String, storageKey c v = c ++ "/" ++ v ++ ".mp4" :=
  ⟨by decide, fun _ _ => rfl⟩

/-- C10: thumbnail retrieval is read-only — `handlerGetThumbnail` leaves
the record store, the `videoThumbnails` registry and the filesystem
unchanged on every request — and when the requested `videoId` has no
record it fails with `NotFoundError "Couldn't find video"` without
consulting the registry (the result is the same for every registry
content). -/
theorem get_thumbnail_readonly :
    (∀ (vid? : Option String) (st : WorldState), (handlerGetThumbnail vid? st).1 = st) ∧
    (∀ (vid : String) (st : WorldState) (reg : List (String × Thumbnail)),
       getVideo st.db vid = none →
       (handlerGetThumbnail (some vid) { st with videoThumbnails := reg }).2
         = Except.error (Err.notFound "Couldn't find video")) := by
  constructor
  · intro vid? st
    unfold handlerGetThumbnail
    rcases vid? with _ | vid
    · rfl
    · rcases h1 : getVideo st.db vid with _ | v
      · simp [h1]
      · rcases h2 : getEntry st.videoThumbnails vid with _ | t <;> simp [h1, h2]
  · intro vid st reg h
    have hdb : getVideo ({ st with videoThumbnails := reg } : WorldState).db vid = none := h
    simp [handlerGetThumbnail, hdb]

/-- Witness for C10 at a concrete state: the handler returns the state
unchanged, and with no record for `"nov"` it reports
`NotFoundError "Couldn't find video"` even though the registry holds an
entry for `"nov"`. -/
theorem get_thumbnail_readonly_witness :
    (handlerGetThumbnail (some "nov")
        { db := [], videoThumbnails := [], files := [], s3 := [] }).1
      = { db := [], videoThumbnails := [], files := [], s3 := [] } ∧
    (handlerGetThumbnail (some "nov")
        { db := [], videoThumbnails := [("nov", { data := [1], mediaType := "image/png" })],
          files := [], s3 := [] }).2
      = Except.error (Err.notFound "Couldn't find video") :=
  ⟨get_thumbnail_readonly.1 (some "nov")
      { db := [], videoThumbnails := [], files := [], s3 := [] },
   get_thumbnail_readonly.2 "nov"
      { db := [], videoThumbnails := [], files := [], s3 := [] }
      [("nov", { data := [1], mediaType := "image/png" })] (by decide)⟩

/-! ### Concrete scenarios -/

/-- Record store holding one video `"v1"` owned by `"u1"`. -/
def c1St : WorldState :=
  { db := [("v1", { id := "v1", userID := "u1", videoURL := none, thumbnailURL := none })],
    videoThumbnails := [], files := [], s3 := [] }

/-- Well-formed upload request for `"v1"` by its owner: a 2-byte
`video/mp4` payload. -/
def c1Req : VideoReq :=
  { videoId := some "v1", userID := "u1",
    upload := some { size := 2, type := "video/mp4", bytes := [1, 2] } }

/-- Fully successful environment: probe reports a 1920×1080 stream,
remux exits 0 leaving bytes `[9, 9]`, S3 succeeds, and the presigner
returns `"https://sign.example/" ++ key ++ "?exp=" ++ expiry`. -/
def c1Env : VideoEnv :=
  { probe := { exitCode := 0, stderr := "", stdout := .streams 1920 1080 },
    remux := { exitCode := 0, stderr := "", output := some [9, 9] },
    s3PutOk := true,
    presign := fun k n => "https://sign.example/" ++ k ++ "?exp=" ++ toString n }

theorem c1_probe_landscape : getVideoAspectRatio c1Env.probe = Except.ok "landscape" := by
  simp [c1Env, getVideoAspectRatio, classifyAspect_1920_1080]

/-- C1: the claim states that the record persisted via `updateVideo`
carries the stable storage key in `videoURL`. The code instead persists
the signed URL: after a fully successful ingestion of `"v1"` the stored
record's `videoURL` is the presigned URL, not the key
`"landscape/v1.mp4"`, and signing the persisted record again (as a
second retrieval would) presigns the already-signed URL, so the
underlying key is not stable across issuances. -/
theorem signed_url_persisted_instead_of_key :
    getVideo (handlerUploadVideo c1Env c1Req c1St).1.db "v1"
      = some { id := "v1", userID := "u1",
               videoURL := some "https://sign.example/landscape/v1.mp4?exp=360",
               thumbnailURL := none } ∧
    storageKey "landscape" "v1" = "landscape/v1.mp4" ∧
    (some "https://sign.example/landscape/v1.mp4?exp=360" : Option String)
      ≠ some "landscape/v1.mp4" ∧
    dbVideoToSignedVideo c1Env.presign
        { id := "v1", userID := "u1",
          videoURL := some "https://sign.example/landscape/v1.mp4?exp=360",
          thumbnailURL := none }
      = { id := "v1", userID := "u1",
          videoURL := some
            "https://sign.example/https://sign.example/landscape/v1.mp4?exp=360?exp=360",
          thumbnailURL := none } := by
  refine ⟨?_, by decide, by decide, by decide⟩
  simp only [handlerUploadVideo]
  rw [c1_probe_landscape]
  decide

/-- Record store holding one video `"v2"` owned by `"u2"`. -/
def c2St : WorldState :=
  { db := [("v2", { id := "v2", userID := "u2", videoURL := none, thumbnailURL := none })],
    videoThumbnails := [], files := [], s3 := [] }

/-- Valid thumbnail upload for `"v2"` by its owner: 3 bytes of
`image/png`. -/
def c2Req : ThumbReq :=
  { videoId := some "v2", userID := "u2",
    thumbnail := some { size := 3, type := "image/png", bytes := [1, 2, 3] } }

/-- C2: the claim states that a validated thumbnail upload stores the
payload and media type in the `videoThumbnails` registry so that a
subsequent get returns them. The code never writes the registry: the
upload succeeds (it writes the payload to the assets directory and
updates the record), the registry stays empty, and the subsequent
`handlerGetThumbnail "v2"` throws `NotFoundError "Thumbnail not found"`
instead of returning the payload. -/
theorem thumbnail_registry_never_populated :
    (handlerUploadThumbnail { assetsRoot := "assets", port := 8091 } "rnd" c2Req c2St).2
      = Except.ok { id := "v2", userID := "u2", videoURL := none,
                    thumbnailURL := some "http://localhost:8091/assets/rnd.png" } ∧
    (handlerUploadThumbnail { assetsRoot := "assets", port := 8091 } "rnd" c2Req c2St).1.videoThumbnails
      = [] ∧
    (handlerGetThumbnail (some "v2")
        (handlerUploadThumbnail { assetsRoot := "assets", port := 8091 } "rnd" c2Req c2St).1).2
      = Except.error (Err.notFound "Thumbnail not found") := by
  refine ⟨by decide, by decide, by decide⟩

/-- Record store holding one video `"v4"` owned by `"u4"`. -/
def c4St : WorldState :=
  { db := [("v4", { id := "v4", userID := "u4", videoURL := none, thumbnailURL := none })],
    videoThumbnails := [], files := [], s3 := [] }

/-- Well-formed upload request for `"v4"` by its owner. -/
def c4Req : VideoReq :=
  { videoId := some "v4", userID := "u4",
    upload := some { size := 2, type := "video/mp4", bytes := [1, 2] } }

/-- Fully successful environment for the C4 scenario. -/
def c4EnvOk : VideoEnv :=
  { probe := { exitCode := 0, stderr := "", stdout := .streams 1920 1080 },
    remux := { exitCode := 0, stderr := "", output := some [9, 9] },
    s3PutOk := true, presign := fun k _ => k }

/-- Environment whose probe process exits 1 with stderr `"probe boom"`. -/
def c4EnvProbeFail : VideoEnv :=
  { probe := { exitCode := 1, stderr := "probe boom", stdout := .noStreams },
    remux := { exitCode := 0, stderr := "", output := some [9, 9] },
    s3PutOk := true, presign := fun k _ => k }

theorem c4_probe_landscape : getVideoAspectRatio c4EnvOk.probe = Except.ok "landscape" := by
  simp [c4EnvOk, getVideoAspectRatio, classifyAspect_1920_1080]

/-- C4: the claim states that after the request completes neither the
scratch file nor the processed file remains on disk, on every exit
path. The code removes only the scratch file and only on the success
path: a fully successful ingestion of `"v4"` leaves
`/tmp/v4.mp4.processed` on disk, and a probe failure leaves the scratch
file `/tmp/v4.mp4` on disk (no cleanup runs on the error path). -/
theorem cleanup_not_unconditional :
    (∃ v, (handlerUploadVideo c4EnvOk c4Req c4St).2 = Except.ok v) ∧
    (handlerUploadVideo c4EnvOk c4Req c4St).1.files = [("/tmp/v4.mp4.processed", [9, 9])] ∧
    (handlerUploadVideo c4EnvProbeFail c4Req c4St).2 = Except.error (Err.error "probe boom") ∧
    (handlerUploadVideo c4EnvProbeFail c4Req c4St).1.files = [("/tmp/v4.mp4", [1, 2])] := by
  refine ⟨⟨{ id := "v4", userID := "u4", videoURL := some "landscape/v4.mp4",
             thumbnailURL := none }, ?_⟩, ?_, by decide, by decide⟩
  · simp only [handlerUploadVideo]
    rw [c4_probe_landscape]
    decide
  · simp only [handlerUploadVideo]
    rw [c4_probe_landscape]
    decide

/-- Record store holding one video `"v3"` owned by `"alice"`. -/
def c3St : WorldState :=
  { db := [("v3", { id := "v3", userID := "alice", videoURL := none, thumbnailURL := none })],
    videoThumbnails := [], files := [], s3 := [] }

/-- Valid thumbnail payload for `"v3"` uploaded by `"bob"`, who does not
own the record. -/
def c3Req : ThumbReq :=
  { videoId := some "v3", userID := "bob",
    thumbnail := some { size := 3, type := "image/png", bytes := [7, 8, 9] } }

/-- Counterexample to C3 as stated: a thumbnail upload by a non-owner is
rejected with `UserForbiddenError`, but the handler has already written
the asset file to disk before performing the ownership check — the
claim's "no file … write occurs" fails (the initial filesystem is empty,
the final one holds the written asset). -/
theorem thumb_asset_written_despite_ownership_mismatch :
    (handlerUploadThumbnail { assetsRoot := "assets", port := 8091 } "r3" c3Req c3St).2
      = Except.error (Err.userForbidden "Not authorized to update this video") ∧
    c3St.files = [] ∧
    (handlerUploadThumbnail { assetsRoot := "assets", port := 8091 } "r3" c3Req c3St).1.files
      = [("assets/r3.png", [7, 8, 9])] := by
  refine ⟨by decide, by decide, by decide⟩

/-- Record store holding one video `"v5"` owned by `"u5"`. -/
def c5St : WorldState :=
  { db := [("v5", { id := "v5", userID := "u5", videoURL := none, thumbnailURL := none })],
    videoThumbnails := [], files := [], s3 := [] }

/-- Well-formed upload request for `"v5"` by its owner. -/
def c5Req : VideoReq :=
  { videoId := some "v5", userID := "u5",
    upload := some { size := 2, type := "video/mp4", bytes := [1, 2] } }

/-- Environment whose remux process exits 0 but leaves an empty output
file. -/
def c5Env : VideoEnv :=
  { probe := { exitCode := 0, stderr := "", stdout := .streams 1920 1080 },
    remux := { exitCode := 0, stderr := "", output := some [] },
    s3PutOk := true, presign := fun k _ => k }

theorem c5_probe_landscape : getVideoAspectRatio c5Env.probe = Except.ok "landscape" := by
  simp [c5Env, getVideoAspectRatio, classifyAspect_1920_1080]

/-- Counterexample to C5 as stated: the orchestrator does not verify
that the remux output is non-empty. With a remux that exits 0 leaving a
zero-byte output file, the request succeeds and the empty object is
uploaded to S3 under the derived key. -/
theorem empty_remux_output_uploaded :
    (handlerUploadVideo c5Env c5Req c5St).2
      = Except.ok { id := "v5", userID := "u5", videoURL := some "landscape/v5.mp4",
                    thumbnailURL := none } ∧
    getEntry (handlerUploadVideo c5Env c5Req c5St).1.s3 "landscape/v5.mp4" = some [] := by
  refine ⟨?_, ?_⟩
  · simp only [handlerUploadVideo]
    rw [c5_probe_landscape]
    decide
  · simp only [handlerUploadVideo]
    rw [c5_probe_landscape]
    decide

/-- C3 (amended): every upload whose record's owner differs from the
requesting principal fails with `UserForbiddenError` and causes no
record, registry, or object-store write; for video uploads the check
runs before any write at all (the state is returned unchanged), while
for thumbnail uploads the asset file has already been written to disk
before the ownership check (only that file write appears in the final
state). -/
theorem ownership_mismatch_no_durable_write :
    (∀ (env : VideoEnv) (vid : String) (f : UploadFile) (rec : Video)
        (userID : String) (st : WorldState),
       f.size ≤ MAX_UPLOAD_SIZE_VIDEO → f.type = "video/mp4" →
       getVideo st.db vid = some rec → rec.userID ≠ userID →
       handlerUploadVideo env ⟨some vid, userID, some f⟩ st
         = (st, Except.error (Err.userForbidden "Not authorized to update this video"))) ∧
    (∀ (cfg : Cfg) (rnd vid : String) (f : UploadFile) (rec : Video)
        (userID : String) (st : WorldState),
       f.size ≤ MAX_UPLOAD_SIZE_THUMB → (f.type = "image/jpeg" ∨ f.type = "image/png") →
       getVideo st.db vid = some rec → rec.userID ≠ userID →
       handlerUploadThumbnail cfg rnd ⟨some vid, userID, some f⟩ st
         = ({ st with files := setEntry st.files (assetPathOf cfg rnd f.type) f.bytes },
            Except.error (Err.userForbidden "Not authorized to update this video"))) := by
  constructor
  · intro env vid f rec userID st hsize htype hget hown
    simp [handlerUploadVideo, htype, hget, hown, Nat.not_lt.mpr hsize]
  · intro cfg rnd vid f rec userID st hsize htype hget hown
    rcases htype with h | h <;>
      simp [handlerUploadThumbnail, h, hget, hown, Nat.not_lt.mpr hsize]

/-- Witness for the amended C3: concrete non-owner requests against a
record owned by `"alice"` — the video upload leaves the state unchanged,
the thumbnail upload leaves exactly the written asset file. -/
theorem ownership_mismatch_no_durable_write_witness :
    handlerUploadVideo
        { probe := { exitCode := 0, stderr := "", stdout := .streams 1920 1080 },
          remux := { exitCode := 0, stderr := "", output := some [9] },
          s3PutOk := true, presign := fun k _ => k }
        ⟨some "w3", "bob", some { size := 2, type := "video/mp4", bytes := [1, 2] }⟩
        { db := [("w3", { id := "w3", userID := "alice", videoURL := none, thumbnailURL := none })],
          videoThumbnails := [], files := [], s3 := [] }
      = ({ db := [("w3", { id := "w3", userID := "alice", videoURL := none, thumbnailURL := none })],
           videoThumbnails := [], files := [], s3 := [] },
         Except.error (Err.userForbidden "Not authorized to update this video")) ∧
    handlerUploadThumbnail { assetsRoot := "assets", port := 1 } "w3r"
        ⟨some "w3", "bob", some { size := 2, type := "image/jpeg", bytes := [1, 2] }⟩
        { db := [("w3", { id := "w3", userID := "alice", videoURL := none, thumbnailURL := none })],
          videoThumbnails := [], files := [], s3 := [] }
      = ({ db := [("w3", { id := "w3", userID := "alice", videoURL := none, thumbnailURL := none })],
           videoThumbnails := [], files := [("assets/w3r.jpeg", [1, 2])], s3 := [] },
         Except.error (Err.userForbidden "Not authorized to update this video")) :=
  ⟨ownership_mismatch_no_durable_write.1 _ "w3"
      { size := 2, type := "video/mp4", bytes := [1, 2] }
      { id := "w3", userID := "alice", videoURL := none, thumbnailURL := none }
      "bob" _ (by decide) rfl (by decide) (by decide),
   ownership_mismatch_no_durable_write.2 { assetsRoot := "assets", port := 1 } "w3r" "w3"
      { size := 2, type := "image/jpeg", bytes := [1, 2] }
      { id := "w3", userID := "alice", videoURL := none, thumbnailURL := none }
      "bob" _ (by decide) (Or.inl rfl) (by decide) (by decide)⟩

/-- C5 (amended): the remuxer produces its output at the derived path
`<input>.processed` (a successful run reports that path, and whatever
bytes the process produced land there); a non-zero exit fails with an
error carrying the exit code and the diagnostic output; and before
uploading, the orchestrator verifies the output file exists, treating
absence as an error (`"Processed file was not created"`) even when the
process reported success — but it does not verify the output is
non-empty. -/
theorem remux_error_contract :
    (∀ (proc : RemuxProc) (input : String) (st : WorldState),
       proc.exitCode = 0 →
       (processVideoForFastStart proc input st).2 = Except.ok (input ++ ".processed")) ∧
    (∀ (proc : RemuxProc) (input : String) (st : WorldState) (bytes : List Nat),
       proc.output = some bytes →
       (processVideoForFastStart proc input st).1
         = { st with files := setEntry st.files (input ++ ".processed") bytes }) ∧
    (∀ (proc : RemuxProc) (input : String) (st : WorldState),
       proc.exitCode ≠ 0 →
       (processVideoForFastStart proc input st).2
         = Except.error (Err.error ("Command failed with code "
             ++ toString proc.exitCode ++ ": " ++ proc.stderr))) ∧
    (∀ (env : VideoEnv) (vid : String) (f : UploadFile) (rec : Video)
        (userID : String) (st : WorldState) (w hgt : Nat),
       f.size ≤ MAX_UPLOAD_SIZE_VIDEO → f.type = "video/mp4" →
       getVideo st.db vid = some rec → rec.userID = userID →
       env.probe.exitCode = 0 → env.probe.stdout = .streams w hgt →
       env.remux.exitCode = 0 → env.remux.output = none →
       getEntry st.files (tempFilePathOf vid ++ ".processed") = none →
       handlerUploadVideo env ⟨some vid, userID, some f⟩ st
         = ({ st with files := setEntry st.files (tempFilePathOf vid) f.bytes },
            Except.error (Err.error "Processed file was not created"))) := by
  refine ⟨?_, ?_, ?_, ?_⟩
  · intro proc input st h
    cases ho : proc.output <;> simp [processVideoForFastStart, h, ho]
  · intro proc input st bytes ho
    by_cases hc : proc.exitCode ≠ 0 <;> simp [processVideoForFastStart, ho, hc]
  · intro proc input st h
    cases ho : proc.output <;> simp [processVideoForFastStart, h, ho]
  · intro env vid f rec userID st w hgt hsize htype hget hown hpe hps hre hro hnf
    have hlook : getEntry (setEntry st.files (tempFilePathOf vid) f.bytes)
        (tempFilePathOf vid ++ ".processed") = none := by
      rw [getEntry_setEntry_ne _ _ _ _ (ne_append_processed _), hnf]
    simp [handlerUploadVideo, htype, hget, hown, Nat.not_lt.mpr hsize,
      getVideoAspectRatio, processVideoForFastStart, hpe, hps, hre, hro, hlook]

/-- Witness for the amended C5 at concrete inputs: a successful remux
reports `/tmp/w5.mp4.processed` and deposits its bytes there; exit code
2 yields the error with code and stderr; a remux that exits 0 without
creating output makes the upload fail with
`"Processed file was not created"`. -/
theorem remux_error_contract_witness :
    (processVideoForFastStart { exitCode := 0, stderr := "", output := some [1] } "/tmp/w5.mp4"
        { db := [], videoThumbnails := [], files := [], s3 := [] }).2
      = Except.ok "/tmp/w5.mp4.processed" ∧
    (processVideoForFastStart { exitCode := 0, stderr := "", output := some [1] } "/tmp/w5.mp4"
        { db := [], videoThumbnails := [], files := [], s3 := [] }).1
      = { db := [], videoThumbnails := [], files := [("/tmp/w5.mp4.processed", [1])], s3 := [] } ∧
    (processVideoForFastStart { exitCode := 2, stderr := "bad atom", output := some [1] } "/tmp/w5.mp4"
        { db := [], videoThumbnails := [], files := [], s3 := [] }).2
      = Except.error (Err.error "Command failed with code 2: bad atom") ∧
    handlerUploadVideo
        { probe := { exitCode := 0, stderr := "", stdout := .streams 1920 1080 },
          remux := { exitCode := 0, stderr := "", output := none },
          s3PutOk := true, presign := fun k _ => k }
        ⟨some "w5", "u5w", some { size := 2, type := "video/mp4", bytes := [1, 2] }⟩
        { db := [("w5", { id := "w5", userID := "u5w", videoURL := none, thumbnailURL := none })],
          videoThumbnails := [], files := [], s3 := [] }
      = ({ db := [("w5", { id := "w5", userID := "u5w", videoURL := none, thumbnailURL := none })],
           videoThumbnails := [], files := [("/tmp/w5.mp4", [1, 2])], s3 := [] },
         Except.error (Err.error "Processed file was not created")) :=
  ⟨remux_error_contract.1 { exitCode := 0, stderr := "", output := some [1] } "/tmp/w5.mp4"
      { db := [], videoThumbnails := [], files := [], s3 := [] } rfl,
   remux_error_contract.2.1 { exitCode := 0, stderr := "", output := some [1] } "/tmp/w5.mp4"
      { db := [], videoThumbnails := [], files := [], s3 := [] } [1] rfl,
   remux_error_contract.2.2.1 { exitCode := 2, stderr := "bad atom", output := some [1] }
      "/tmp/w5.mp4" { db := [], videoThumbnails := [], files := [], s3 := [] } (by decide),
   remux_error_contract.2.2.2 _ "w5" { size := 2, type := "video/mp4", bytes := [1, 2] }
      { id := "w5", userID := "u5w", videoURL := none, thumbnailURL := none }
      "u5w" _ 1920 1080 (by decide) rfl (by decide) rfl rfl rfl rfl rfl (by decide)⟩

/-- C6: every upload whose payload is missing, exceeds its size ceiling
(1 GiB for video, 10 MiB for thumbnail), or declares a media type
outside the accepted set (video: only `video/mp4`; thumbnail: only
`image/jpeg` or `image/png`) fails with a `BadRequestError` and the
state — record store, registry, filesystem, object store — is returned
unchanged: no write of any kind has occurred. -/
theorem validation_rejected_before_any_write :
    (∀ (env : VideoEnv) (vid : Option String) (userID : String) (up : Option UploadFile)
        (st : WorldState),
       (up = none ∨ ∃ f, up = some f ∧
         (f.size > MAX_UPLOAD_SIZE_VIDEO ∨ f.type ≠ "video/mp4")) →
       ∃ msg, handlerUploadVideo env ⟨vid, userID, up⟩ st
         = (st, Except.error (Err.badRequest msg))) ∧
    (∀ (cfg : Cfg) (rnd : String) (vid : Option String) (userID : String)
        (up : Option UploadFile) (st : WorldState),
       (up = none ∨ ∃ f, up = some f ∧
         (f.size > MAX_UPLOAD_SIZE_THUMB ∨ (f.type ≠ "image/jpeg" ∧ f.type ≠ "image/png"))) →
       ∃ msg, handlerUploadThumbnail cfg rnd ⟨vid, userID, up⟩ st
         = (st, Except.error (Err.badRequest msg))) := by
  constructor
  · intro env vid userID up st hbad
    rcases vid with _ | v
    · exact ⟨"Invalid video ID", rfl⟩
    rcases hbad with rfl | ⟨f, rfl, hbad⟩
    · exact ⟨"Video file missing", rfl⟩
    by_cases hs : f.size > MAX_UPLOAD_SIZE_VIDEO
    · exact ⟨"Video too large, max size: 1GB", by simp [handlerUploadVideo, hs]⟩
    have ht : f.type ≠ "video/mp4" := by tauto
    by_cases he : f.type = ""
    · exact ⟨"Missing Content-Type for video", by simp [handlerUploadVideo, hs, he]⟩
    · exact ⟨"Invalid Content-Type for video, only MP4 is allowed",
        by simp [handlerUploadVideo, hs, he, ht]⟩
  · intro cfg rnd vid userID up st hbad
    rcases vid with _ | v
    · exact ⟨"Invalid video ID", rfl⟩
    rcases hbad with rfl | ⟨f, rfl, hbad⟩
    · exact ⟨"Thumbnail file missing", rfl⟩
    by_cases hs : f.size > MAX_UPLOAD_SIZE_THUMB
    · exact ⟨"Thumbnail too large, max size: 10MB", by simp [handlerUploadThumbnail, hs]⟩
    have ht : f.type ≠ "image/jpeg" ∧ f.type ≠ "image/png" := by tauto
    by_cases he : f.type = ""
    · exact ⟨"Missing Content-Type for thumbnail", by simp [handlerUploadThumbnail, hs, he]⟩
    · exact ⟨"Invalid Content-Type for thumbnail",
        by simp [handlerUploadThumbnail, hs, he, ht]⟩

/-- Witness for C6: an oversize video upload (one byte over 1 GiB) and a
thumbnail with media type `text/plain` are both rejected with a
`BadRequestError` and an unchanged state. -/
theorem validation_rejected_before_any_write_witness :
    (∃ msg, handlerUploadVideo
        { probe := { exitCode := 0, stderr := "", stdout := .streams 1 1 },
          remux := { exitCode := 0, stderr := "", output := none },
          s3PutOk := true, presign := fun k _ => k }
        ⟨some "w6", "u", some { size := 1073741825, type := "video/mp4", bytes := [] }⟩
        { db := [], videoThumbnails := [], files := [], s3 := [] }
      = ({ db := [], videoThumbnails := [], files := [], s3 := [] },
         Except.error (Err.badRequest msg))) ∧
    (∃ msg, handlerUploadThumbnail { assetsRoot := "assets", port := 1 } "w6r"
        ⟨some "w6", "u", some { size := 3, type := "text/plain", bytes := [1, 2, 3] }⟩
        { db := [], videoThumbnails := [], files := [], s3 := [] }
      = ({ db := [], videoThumbnails := [], files := [], s3 := [] },
         Except.error (Err.badRequest msg))) :=
  ⟨validation_rejected_before_any_write.1 _ (some "w6") "u"
      (some { size := 1073741825, type := "video/mp4", bytes := [] })
      { db := [], videoThumbnails := [], files := [], s3 := [] }
      (Or.inr ⟨_, rfl, Or.inl (by decide)⟩),
   validation_rejected_before_any_write.2 { assetsRoot := "assets", port := 1 } "w6r"
      (some "w6") "u" (some { size := 3, type := "text/plain", bytes := [1, 2, 3] })
      { db := [], videoThumbnails := [], files := [], s3 := [] }
      (Or.inr ⟨_, rfl, Or.inr (by decide)⟩)⟩

/-- Counterexample to C8 as stated: a probe whose process exits 0 but
prints malformed JSON fails with the JSON parser's `SyntaxError`, whose
message is derived from the stdout text and does not carry the
process's diagnostic output (stderr) — neither equal to it nor
containing it as a substring. -/
theorem probe_parse_error_lacks_diagnostics :
    getVideoAspectRatio
        { exitCode := 0, stderr := "ffprobe diagnostic output",
          stdout := .malformed "Unexpected token u in JSON at position 0" }
      = Except.error (Err.syntaxError "Unexpected token u in JSON at position 0") ∧
    (Err.syntaxError "Unexpected token u in JSON at position 0").message
      ≠ "ffprobe diagnostic output" ∧
    ¬ ("ffprobe diagnostic output".data
        <:+: (Err.syntaxError "Unexpected token u in JSON at position 0").message.data) := by
  refine ⟨rfl, by decide, by decide⟩

/-- C8 (amended): every probe failure is fatal to the upload and not
retried — a non-zero exit fails with an error carrying the process's
stderr; malformed process output fails with the JSON parser's
`SyntaxError` (message derived from stdout, not stderr); missing stream
data fails with a `TypeError`; and any probe error propagates out of
`handlerUploadVideo` unchanged, aborting the pipeline with no object
store, registry, or record write (only the scratch-file write has
happened). -/
theorem probe_failure_fatal :
    (∀ p : ProbeProc, p.exitCode ≠ 0 →
       getVideoAspectRatio p = Except.error (Err.error p.stderr)) ∧
    (∀ (p : ProbeProc) (msg : String), p.exitCode = 0 → p.stdout = .malformed msg →
       getVideoAspectRatio p = Except.error (Err.syntaxError msg)) ∧
    (∀ p : ProbeProc, p.exitCode = 0 → p.stdout = .noStreams →
       getVideoAspectRatio p
         = Except.error (Err.typeError "undefined is not an object (evaluating data.streams[0])")) ∧
    (∀ (env : VideoEnv) (vid : String) (f : UploadFile) (rec : Video)
        (userID : String) (st : WorldState) (e : Err),
       f.size ≤ MAX_UPLOAD_SIZE_VIDEO → f.type = "video/mp4" →
       getVideo st.db vid = some rec → rec.userID = userID →
       getVideoAspectRatio env.probe = Except.error e →
       handlerUploadVideo env ⟨some vid, userID, some f⟩ st
         = ({ st with files := setEntry st.files (tempFilePathOf vid) f.bytes },
            Except.error e)) := by
  refine ⟨?_, ?_, ?_, ?_⟩
  · intro p h
    simp [getVideoAspectRatio, h]
  · intro p msg h0 hm
    simp [getVideoAspectRatio, h0, hm]
  · intro p h0 hm
    simp [getVideoAspectRatio, h0, hm]
  · intro env vid f rec userID st e hsize htype hget hown hprobe
    simp [handlerUploadVideo, htype, hget, hown, Nat.not_lt.mpr hsize, hprobe]

/-- Witness for the amended C8 at concrete inputs: exit 1 carries
stderr; malformed stdout carries the parse message; an empty `streams`
array carries the `TypeError`; and a probe failure aborts the concrete
upload with only the scratch file written. -/
theorem probe_failure_fatal_witness :
    getVideoAspectRatio { exitCode := 1, stderr := "no such file", stdout := .noStreams }
      = Except.error (Err.error "no such file") ∧
    getVideoAspectRatio { exitCode := 0, stderr := "d", stdout := .malformed "bad json" }
      = Except.error (Err.syntaxError "bad json") ∧
    getVideoAspectRatio { exitCode := 0, stderr := "d", stdout := .noStreams }
      = Except.error (Err.typeError "undefined is not an object (evaluating data.streams[0])") ∧
    handlerUploadVideo
        { probe := { exitCode := 1, stderr := "no such file", stdout := .noStreams },
          remux := { exitCode := 0, stderr := "", output := none },
          s3PutOk := true, presign := fun k _ => k }
        ⟨some "w8", "u8w", some { size := 2, type := "video/mp4", bytes := [3, 4] }⟩
        { db := [("w8", { id := "w8", userID := "u8w", videoURL := none, thumbnailURL := none })],
          videoThumbnails := [], files := [], s3 := [] }
      = ({ db := [("w8", { id := "w8", userID := "u8w", videoURL := none, thumbnailURL := none })],
           videoThumbnails := [], files := [("/tmp/w8.mp4", [3, 4])], s3 := [] },
         Except.error (Err.error "no such file")) :=
  ⟨probe_failure_fatal.1 { exitCode := 1, stderr := "no such file", stdout := .noStreams }
      (by decide),
   probe_failure_fatal.2.1 { exitCode := 0, stderr := "d", stdout := .malformed "bad json" }
      "bad json" rfl rfl,
   probe_failure_fatal.2.2.1 { exitCode := 0, stderr := "d", stdout := .noStreams } rfl rfl,
   probe_failure_fatal.2.2.2 _ "w8" { size := 2, type := "video/mp4", bytes := [3, 4] }
      { id := "w8", userID := "u8w", videoURL := none, thumbnailURL := none }
      "u8w" _ (Err.error "no such file") (by decide) rfl (by decide) rfl rfl⟩

end FileStorage
